import Mathlib

/-!
Shallow embedding of `litellm/litellm_core_utils/logging_callback_manager.py`
(class `LoggingCallbackManager`) and proofs about its registration logic.

Modelling choices:
* A callback value is one of: a string name, a function (identified by
  Python object identity, modelled as a numeric reference id, together with
  whether the object carries a `__name__` attribute), a `CustomLogger`
  instance (identified by an instance id, its concrete class id and the ids
  of its ancestor classes, so Python `isinstance` checks are computable), or
  any other value (the code's `Any`-typed inputs that match none of the
  `isinstance` branches).
* The seven module-level lists (`litellm.input_callback`,
  `litellm.service_callback`, `litellm.callbacks`, `litellm.success_callback`,
  `litellm.failure_callback`, `litellm._async_success_callback`,
  `litellm._async_failure_callback`) become the fields of a `Registry`
  structure; each method becomes a function from registry to registry.
* `verbose_logger.debug` calls have no effect on the lists and are elided in
  the main embedding; a second embedding of `_add_callback_function_to_list`
  into `Except` additionally models the eager evaluation of
  `callback.__name__` inside the f-string argument of the debug call, which
  raises `AttributeError` for callables that have no `__name__` attribute.
-/

namespace LoggingCallbackManager

/-- A `CustomLogger` instance: `instId` is the object identity (Python `is`
and the default `==`), `cls` is the id of its concrete class (`__class__`),
and `ancestors` are the ids of all its strict superclasses, so that
`isinstance(x, c)` holds iff `c = x.cls` or `c ∈ x.ancestors`. -/
structure CustomLogger where
  instId : Nat
  cls : Nat
  ancestors : List Nat
deriving DecidableEq

/-- The values a registration entry point can receive: a string name, a
callable (reference id plus presence of `__name__`), a `CustomLogger`
instance, or any other object (matched by none of the `isinstance` tests). -/
inductive Callback where
  | str (s : String)
  | func (ref : Nat) (hasName : Bool)
  | logger (l : CustomLogger)
  | other (o : Nat)
deriving DecidableEq

/-- Python `==` between two callback values under default object semantics:
strings compare by value; functions, logger instances and unknown objects
compare by identity; values of different kinds are unequal. -/
def pyEq : Callback → Callback → Bool
  | .str a, .str b => a == b
  | .func a _, .func b _ => a == b
  | .logger a, .logger b => a.instId == b.instId
  | .other a, .other b => a == b
  | _, _ => false

/-- Python `x in list` over a callback list. -/
def pyMem (cb : Callback) (l : List Callback) : Bool :=
  l.any (fun e => pyEq cb e)

/-- `LoggingCallbackManager.MAX_CALLBACKS` (declared limit, line 18). -/
def MAX_CALLBACKS : Nat := 20

/-- `_add_string_callback_to_list` (lines 93-104): append the string callback
unless it is already in the list; the duplicate branch only emits a debug
log. -/
def _add_string_callback_to_list (callback : String) (parent_list : List Callback) :
    List Callback :=
  if pyMem (.str callback) parent_list then parent_list
  else parent_list ++ [.str callback]

/-- `_add_callback_function_to_list` (lines 160-172): append the callable
unless the same function object is already in the list; the duplicate branch
only emits a debug log. -/
def _add_callback_function_to_list (ref : Nat) (hasName : Bool)
    (parent_list : List Callback) : List Callback :=
  if pyMem (.func ref hasName) parent_list then parent_list
  else parent_list ++ [.func ref hasName]

/-- `_add_callback_function_to_list`, with the duplicate branch refined: the
f-string passed to `verbose_logger.debug` evaluates `callback.__name__`
eagerly, which raises `AttributeError` when the callable has no `__name__`
attribute (for example a `functools.partial` object or an instance of a class
defining `__call__`). -/
def _add_callback_function_to_list_exc (ref : Nat) (hasName : Bool)
    (parent_list : List Callback) : Except String (List Callback) :=
  if pyMem (.func ref hasName) parent_list then
    if hasName then .ok parent_list else .error "AttributeError"
  else .ok (parent_list ++ [.func ref hasName])

/-- The scan condition of `_add_custom_logger_to_list` (lines 184-187):
`isinstance(existing_logger, CustomLogger) and isinstance(existing_logger,
logger_class)` for an entry of the list, where `logger_class` is the concrete
class of the logger being added. -/
def blocks_logger (logger_class : Nat) (e : Callback) : Bool :=
  match e with
  | .logger existing => logger_class == existing.cls || existing.ancestors.contains logger_class
  | _ => false

/-- `_add_custom_logger_to_list` (lines 174-193): scan the list for an
existing `CustomLogger` that is an instance of the new logger's concrete
class; if found, return (only a debug log happens), else append. -/
def _add_custom_logger_to_list (custom_logger : CustomLogger)
    (parent_list : List Callback) : List Callback :=
  if parent_list.any (blocks_logger custom_logger.cls) then parent_list
  else parent_list ++ [.logger custom_logger]

/-- `_safe_add_callback_to_list` (lines 136-158): dispatch on the kind of the
callback; a value matching none of the three `isinstance` branches falls
through and the list is untouched. -/
def _safe_add_callback_to_list (callback : Callback) (parent_list : List Callback) :
    List Callback :=
  match callback with
  | .str s => _add_string_callback_to_list s parent_list
  | .func r hn => _add_callback_function_to_list r hn parent_list
  | .logger l => _add_custom_logger_to_list l parent_list
  | .other _ => parent_list

/-- `_safe_add_callback_to_list` with the `AttributeError` path of the
callable branch made explicit; the string and logger branches only format
values that always support it, so they never raise. -/
def _safe_add_callback_to_list_exc (callback : Callback) (parent_list : List Callback) :
    Except String (List Callback) :=
  match callback with
  | .str s => .ok (_add_string_callback_to_list s parent_list)
  | .func r hn => _add_callback_function_to_list_exc r hn parent_list
  | .logger l => .ok (_add_custom_logger_to_list l parent_list)
  | .other _ => .ok parent_list

/-- The seven module-level callback lists mutated by the manager. -/
structure Registry where
  input_callback : List Callback
  service_callback : List Callback
  callbacks : List Callback
  success_callback : List Callback
  failure_callback : List Callback
  async_success_callback : List Callback
  async_failure_callback : List Callback
deriving DecidableEq

/-- `add_input_callback` (lines 20-26). -/
def add_input_callback (r : Registry) (callback : Callback) : Registry :=
  { r with input_callback := _safe_add_callback_to_list callback r.input_callback }

/-- `add_service_callback` (lines 28-34). -/
def add_service_callback (r : Registry) (callback : Callback) : Registry :=
  { r with service_callback := _safe_add_callback_to_list callback r.service_callback }

/-- `add_callback` (lines 36-44), targeting `litellm.callbacks`. -/
def add_callback (r : Registry) (callback : Callback) : Registry :=
  { r with callbacks := _safe_add_callback_to_list callback r.callbacks }

/-- `add_sync_success_callback` (lines 46-52). -/
def add_sync_success_callback (r : Registry) (callback : Callback) : Registry :=
  { r with success_callback := _safe_add_callback_to_list callback r.success_callback }

/-- `add_sync_failure_callback` (lines 54-60). -/
def add_sync_failure_callback (r : Registry) (callback : Callback) : Registry :=
  { r with failure_callback := _safe_add_callback_to_list callback r.failure_callback }

/-- `add_async_success_callback` (lines 62-68). -/
def add_async_success_callback (r : Registry) (callback : Callback) : Registry :=
  { r with async_success_callback := _safe_add_callback_to_list callback r.async_success_callback }

/-- `add_async_failure_callback` (lines 70-76). -/
def add_async_failure_callback (r : Registry) (callback : Callback) : Registry :=
  { r with async_failure_callback := _safe_add_callback_to_list callback r.async_failure_callback }

/-- `add_success_callback_sync_and_async` (lines 78-84). -/
def add_success_callback_sync_and_async (r : Registry) (callback : Callback) : Registry :=
  add_async_success_callback (add_sync_success_callback r callback) callback

/-- `add_failure_callback_sync_and_async` (lines 86-91). -/
def add_failure_callback_sync_and_async (r : Registry) (callback : Callback) : Registry :=
  add_async_failure_callback (add_sync_failure_callback r callback) callback

/-- `_add_custom_logger_to_all_callback_lists` (lines 106-134): a `None`
argument returns immediately; a non-`CustomLogger` argument fails the
`isinstance` test and nothing happens; a `CustomLogger` is added to the six
lists in source order (sync success, async success, sync failure, async
failure, input, service). The generic `callbacks` list is never touched. -/
def _add_custom_logger_to_all_callback_lists (r : Registry)
    (custom_logger : Option Callback) : Registry :=
  match custom_logger with
  | none => r
  | some cb =>
    match cb with
    | .logger _ =>
      add_service_callback
        (add_input_callback
          (add_async_failure_callback
            (add_sync_failure_callback
              (add_async_success_callback
                (add_sync_success_callback r cb) cb) cb) cb) cb) cb
    | _ => r

/-- `_reset_all_callbacks` (lines 195-205): reassigns five of the seven lists
to `[]`; `service_callback` and `callbacks` are not mentioned. -/
def _reset_all_callbacks (r : Registry) : Registry :=
  { r with
    input_callback := []
    success_callback := []
    failure_callback := []
    async_success_callback := []
    async_failure_callback := [] }

/-- A callback value matching one of the three `isinstance` branches of
`_safe_add_callback_to_list`. -/
def is_recognized : Callback → Bool
  | .other _ => false
  | _ => true

/-- The duplicate test each branch of `_safe_add_callback_to_list` applies
before appending: string and function callbacks by Python `in`, logger
instances by the class-based scan. -/
def is_duplicate_in (callback : Callback) (parent_list : List Callback) : Bool :=
  match callback with
  | .str _ => pyMem callback parent_list
  | .func _ _ => pyMem callback parent_list
  | .logger l => parent_list.any (blocks_logger l.cls)
  | .other _ => false

/-- Number of `CustomLogger` entries of concrete class `c` in a list. -/
def countLoggersOfClass (c : Nat) (l : List Callback) : Nat :=
  l.countP (fun e => match e with | .logger lg => lg.cls == c | _ => false)

theorem pyEq_refl (cb : Callback) : pyEq cb cb = true := by
  cases cb <;> simp [pyEq]

theorem pyMem_append_self (cb : Callback) (l : List Callback) :
    pyMem cb (l ++ [cb]) = true := by
  simp [pyMem, List.any_append, pyEq_refl]

theorem safe_add_eq_append (cb : Callback) (l : List Callback)
    (hrec : is_recognized cb = true) (hdup : is_duplicate_in cb l = false) :
    _safe_add_callback_to_list cb l = l ++ [cb] := by
  cases cb <;>
    simp_all [_safe_add_callback_to_list, _add_string_callback_to_list,
      _add_callback_function_to_list, _add_custom_logger_to_list,
      is_duplicate_in, is_recognized]

theorem safe_add_eq_self (cb : Callback) (l : List Callback)
    (hdup : is_duplicate_in cb l = true) :
    _safe_add_callback_to_list cb l = l := by
  cases cb <;>
    simp_all [_safe_add_callback_to_list, _add_string_callback_to_list,
      _add_callback_function_to_list, _add_custom_logger_to_list,
      is_duplicate_in]

theorem safe_add_self_or_append (cb : Callback) (l : List Callback) :
    _safe_add_callback_to_list cb l = l ∨ _safe_add_callback_to_list cb l = l ++ [cb] := by
  cases h : is_duplicate_in cb l
  · cases hr : is_recognized cb
    · cases cb <;> simp_all [is_recognized, _safe_add_callback_to_list]
    · exact Or.inr (safe_add_eq_append cb l hr h)
  · exact Or.inl (safe_add_eq_self cb l h)

theorem is_duplicate_in_nil (cb : Callback) : is_duplicate_in cb [] = false := by
  cases cb <;> simp [is_duplicate_in, pyMem]

theorem countLoggers_eq_zero_of_no_blocker (c : Nat) (l : List Callback)
    (h : l.any (blocks_logger c) = false) : countLoggersOfClass c l = 0 := by
  rw [countLoggersOfClass, List.countP_eq_zero]
  intro e he
  have hb := (List.any_eq_false.mp h) e he
  cases e with
  | logger lg =>
    intro hcontra
    have hc : lg.cls = c := by simpa using hcontra
    simp [blocks_logger, hc] at hb
  | str s => simp
  | func r hn => simp
  | other o => simp

theorem addCL_append_of_no_blocker (h : CustomLogger) (l : List Callback)
    (hb : l.any (blocks_logger h.cls) = false) :
    _add_custom_logger_to_list h l = l ++ [.logger h] := by
  simp [_add_custom_logger_to_list, hb]

theorem countLoggers_after_add (h : CustomLogger) (l : List Callback)
    (hb : l.any (blocks_logger h.cls) = false) :
    countLoggersOfClass h.cls (_add_custom_logger_to_list h l) = 1 := by
  rw [addCL_append_of_no_blocker h l hb, countLoggersOfClass, List.countP_append]
  have h0 := countLoggers_eq_zero_of_no_blocker h.cls l hb
  rw [countLoggersOfClass] at h0
  simp [h0, List.countP_cons]

theorem broadcast_fields (r : Registry) (h : CustomLogger) :
    _add_custom_logger_to_all_callback_lists r (some (.logger h)) =
      { r with
        success_callback := _add_custom_logger_to_list h r.success_callback
        async_success_callback := _add_custom_logger_to_list h r.async_success_callback
        failure_callback := _add_custom_logger_to_list h r.failure_callback
        async_failure_callback := _add_custom_logger_to_list h r.async_failure_callback
        input_callback := _add_custom_logger_to_list h r.input_callback
        service_callback := _add_custom_logger_to_list h r.service_callback } := rfl

/-- Claim C1, counterexample: two `CustomLogger` instances of different
concrete classes (class 1 is a strict subclass of class 0) added to one empty
list yield one entry, not the two entries the claim asserts. -/
theorem claim_C1_counterexample :
    (CustomLogger.mk 10 1 [0]).cls ≠ (CustomLogger.mk 11 0 []).cls ∧
    (_add_custom_logger_to_list ⟨11, 0, []⟩
        (_add_custom_logger_to_list ⟨10, 1, [0]⟩ [])).length = 1 ∧
    (_add_custom_logger_to_list ⟨11, 0, []⟩
        (_add_custom_logger_to_list ⟨10, 1, [0]⟩ [])).length ≠ 2 := by
  decide

/-- Claim C1, amended: adding two distinct instances of the same concrete
class to an empty list yields exactly the first instance; adding instances of
two different concrete classes yields both entries provided the second
instance's class is not a superclass of the first instance's class. -/
theorem claim_C1_handler_dedup (l1 l2 : CustomLogger) :
    (l1.cls = l2.cls →
      _add_custom_logger_to_list l2 (_add_custom_logger_to_list l1 []) =
        [.logger l1]) ∧
    ((l2.cls == l1.cls) = false → l1.ancestors.contains l2.cls = false →
      _add_custom_logger_to_list l2 (_add_custom_logger_to_list l1 []) =
        [.logger l1, .logger l2]) := by
  constructor
  · intro h
    simp [_add_custom_logger_to_list, blocks_logger, h]
  · intro hne hno
    have hno2 : l2.cls ∉ l1.ancestors := by simpa using hno
    simp [_add_custom_logger_to_list, blocks_logger, hne, hno2]

/-- Claim C1, witness: same concrete class 7 twice keeps only the first
instance; unrelated concrete classes 7 and 8 both stay. -/
theorem claim_C1_handler_dedup_witness :
    _add_custom_logger_to_list ⟨1, 7, []⟩ (_add_custom_logger_to_list ⟨0, 7, []⟩ []) =
      [Callback.logger ⟨0, 7, []⟩] ∧
    _add_custom_logger_to_list ⟨3, 8, []⟩ (_add_custom_logger_to_list ⟨2, 7, []⟩ []) =
      [Callback.logger ⟨2, 7, []⟩, Callback.logger ⟨3, 8, []⟩] :=
  ⟨(claim_C1_handler_dedup ⟨0, 7, []⟩ ⟨1, 7, []⟩).1 rfl,
   (claim_C1_handler_dedup ⟨2, 7, []⟩ ⟨3, 8, []⟩).2 rfl rfl⟩

/-- Claim C2: broadcasting a stateful handler of a fresh type (no entry of
any of the six lists is an instance of its class) puts exactly one entry of
that class into each of the six lists and leaves the generic `callbacks` list
untouched. -/
theorem claim_C2_broadcast_fanout (r : Registry) (h : CustomLogger)
    (hi : r.input_callback.any (blocks_logger h.cls) = false)
    (hs : r.service_callback.any (blocks_logger h.cls) = false)
    (hss : r.success_callback.any (blocks_logger h.cls) = false)
    (hsf : r.failure_callback.any (blocks_logger h.cls) = false)
    (has : r.async_success_callback.any (blocks_logger h.cls) = false)
    (haf : r.async_failure_callback.any (blocks_logger h.cls) = false) :
    countLoggersOfClass h.cls
      (_add_custom_logger_to_all_callback_lists r (some (.logger h))).input_callback = 1 ∧
    countLoggersOfClass h.cls
      (_add_custom_logger_to_all_callback_lists r (some (.logger h))).service_callback = 1 ∧
    countLoggersOfClass h.cls
      (_add_custom_logger_to_all_callback_lists r (some (.logger h))).success_callback = 1 ∧
    countLoggersOfClass h.cls
      (_add_custom_logger_to_all_callback_lists r (some (.logger h))).failure_callback = 1 ∧
    countLoggersOfClass h.cls
      (_add_custom_logger_to_all_callback_lists r (some (.logger h))).async_success_callback = 1 ∧
    countLoggersOfClass h.cls
      (_add_custom_logger_to_all_callback_lists r (some (.logger h))).async_failure_callback = 1 ∧
    (_add_custom_logger_to_all_callback_lists r (some (.logger h))).callbacks = r.callbacks := by
  rw [broadcast_fields]
  exact ⟨countLoggers_after_add h _ hi, countLoggers_after_add h _ hs,
    countLoggers_after_add h _ hss, countLoggers_after_add h _ hsf,
    countLoggers_after_add h _ has, countLoggers_after_add h _ haf, rfl⟩

/-- Claim C2, witness: a fresh handler of class 5 broadcast into a registry
whose generic list holds one string callback. -/
theorem claim_C2_broadcast_fanout_witness :
    countLoggersOfClass 5
      (_add_custom_logger_to_all_callback_lists
        (Registry.mk [] [] [Callback.str "g"] [] [] [] [])
        (some (.logger ⟨0, 5, []⟩))).input_callback = 1 ∧
    (_add_custom_logger_to_all_callback_lists
        (Registry.mk [] [] [Callback.str "g"] [] [] [] [])
        (some (.logger ⟨0, 5, []⟩))).callbacks = [Callback.str "g"] := by
  have h := claim_C2_broadcast_fanout (Registry.mk [] [] [Callback.str "g"] [] [] [] [])
    ⟨0, 5, []⟩ rfl rfl rfl rfl rfl rfl
  exact ⟨h.1, h.2.2.2.2.2.2⟩

/-- Claim C3: after `_reset_all_callbacks`, from any registry state, the
input, sync-success, sync-failure, async-success and async-failure lists are
empty, while the service list and the generic `callbacks` list keep exactly
their previous contents. -/
theorem claim_C3_reset_selectivity (r : Registry) :
    (_reset_all_callbacks r).input_callback = [] ∧
    (_reset_all_callbacks r).success_callback = [] ∧
    (_reset_all_callbacks r).failure_callback = [] ∧
    (_reset_all_callbacks r).async_success_callback = [] ∧
    (_reset_all_callbacks r).async_failure_callback = [] ∧
    (_reset_all_callbacks r).service_callback = r.service_callback ∧
    (_reset_all_callbacks r).callbacks = r.callbacks :=
  ⟨rfl, rfl, rfl, rfl, rfl, rfl, rfl⟩

/-- Claim C4: `MAX_CALLBACKS` is never consulted: any callback that is
recognized and distinct under its identity rule is appended regardless of the
list's current length, and 21 distinct function callbacks folded into an
empty list leave it strictly longer than `MAX_CALLBACKS`. -/
theorem claim_C4_max_callbacks_unenforced :
    (∀ (l : List Callback) (cb : Callback), is_recognized cb = true →
      is_duplicate_in cb l = false →
      _safe_add_callback_to_list cb l = l ++ [cb]) ∧
    ((List.range 21).foldl
      (fun l n => _safe_add_callback_to_list (.func n true) l) []).length > MAX_CALLBACKS := by
  refine ⟨fun l cb h1 h2 => safe_add_eq_append cb l h1 h2, ?_⟩
  decide

/-- Claim C4, witness: a list already holding 20 distinct function callbacks
still accepts a 21st distinct one. -/
theorem claim_C4_max_callbacks_unenforced_witness :
    _safe_add_callback_to_list (.func 20 true)
        ((List.range 20).map (fun n => Callback.func n true)) =
      ((List.range 20).map (fun n => Callback.func n true)) ++ [Callback.func 20 true] :=
  claim_C4_max_callbacks_unenforced.1
    ((List.range 20).map (fun n => Callback.func n true)) (.func 20 true) rfl (by decide)

/-- Claim C5: registering for a second time a callable that has no
`__name__` attribute raises `AttributeError` while the duplicate branch
formats its debug message, so registration is not exception-free for every
input. -/
theorem claim_C5_duplicate_nameless_callable_raises :
    _safe_add_callback_to_list_exc (.func 0 false) [Callback.func 0 false] =
      .error "AttributeError" := rfl

/-- Claim C6: an argument matching none of the three recognized variants
leaves every list of the registry unchanged through every add operation, and
raises nothing. -/
theorem claim_C6_unrecognized_noop (r : Registry) (o : Nat) (l : List Callback) :
    add_input_callback r (.other o) = r ∧
    add_service_callback r (.other o) = r ∧
    add_callback r (.other o) = r ∧
    add_sync_success_callback r (.other o) = r ∧
    add_sync_failure_callback r (.other o) = r ∧
    add_async_success_callback r (.other o) = r ∧
    add_async_failure_callback r (.other o) = r ∧
    add_success_callback_sync_and_async r (.other o) = r ∧
    add_failure_callback_sync_and_async r (.other o) = r ∧
    _add_custom_logger_to_all_callback_lists r (some (.other o)) = r ∧
    _safe_add_callback_to_list_exc (.other o) l = .ok l :=
  ⟨rfl, rfl, rfl, rfl, rfl, rfl, rfl, rfl, rfl, rfl, rfl⟩

/-- Claim C7: adding the same string callback twice in a row is idempotent,
and when the string was not already present the result holds exactly one
entry equal to that string, appended at the end. -/
theorem claim_C7_string_idempotent (s : String) (L : List Callback) :
    _add_string_callback_to_list s (_add_string_callback_to_list s L) =
      _add_string_callback_to_list s L ∧
    (pyMem (.str s) L = false →
      _add_string_callback_to_list s (_add_string_callback_to_list s L) =
        L ++ [.str s] ∧
      (L ++ [Callback.str s]).countP (fun e => pyEq (.str s) e) = 1) := by
  constructor
  · by_cases h : pyMem (.str s) L = true
    · simp [_add_string_callback_to_list, h]
    · have h0 : pyMem (.str s) L = false := by simpa using h
      simp [_add_string_callback_to_list, h0, pyMem_append_self]
  · intro h
    constructor
    · simp [_add_string_callback_to_list, h, pyMem_append_self]
    · have h0 : L.countP (fun e => pyEq (.str s) e) = 0 := by
        rw [List.countP_eq_zero]
        intro e he hcontra
        have := (List.any_eq_false.mp h) e he
        simp_all
      simp [List.countP_append, List.countP_cons, h0, pyEq_refl]

/-- Claim C7, witness: "x" added twice to the empty list. -/
theorem claim_C7_string_idempotent_witness :
    _add_string_callback_to_list "x" (_add_string_callback_to_list "x" []) =
      [] ++ [Callback.str "x"] ∧
    ([] ++ [Callback.str "x"]).countP (fun e => pyEq (.str "x") e) = 1 :=
  (claim_C7_string_idempotent "x" []).2 rfl

/-- Claim C8: every add either keeps the list or appends at the end, and
three pairwise-distinct admissible callbacks added in sequence to an empty
list come out exactly in insertion order. -/
theorem claim_C8_order_preservation :
    (∀ (cb : Callback) (l : List Callback),
      _safe_add_callback_to_list cb l = l ∨
        _safe_add_callback_to_list cb l = l ++ [cb]) ∧
    (∀ a b c : Callback, is_recognized a = true → is_recognized b = true →
      is_recognized c = true → is_duplicate_in b [a] = false →
      is_duplicate_in c [a, b] = false →
      _safe_add_callback_to_list c
        (_safe_add_callback_to_list b (_safe_add_callback_to_list a [])) =
          [a, b, c]) := by
  refine ⟨safe_add_self_or_append, ?_⟩
  intro a b c ha hb hc hdb hdc
  have h1 : _safe_add_callback_to_list a [] = [a] := by
    simpa using safe_add_eq_append a [] ha (is_duplicate_in_nil a)
  have h2 : _safe_add_callback_to_list b [a] = [a, b] := by
    simpa using safe_add_eq_append b [a] hb hdb
  have h3 : _safe_add_callback_to_list c [a, b] = [a, b, c] := by
    simpa using safe_add_eq_append c [a, b] hc hdc
  rw [h1, h2, h3]

/-- Claim C8, witness: a string, a function and a logger instance added in
sequence keep insertion order. -/
theorem claim_C8_order_preservation_witness :
    _safe_add_callback_to_list (.logger ⟨2, 5, []⟩)
      (_safe_add_callback_to_list (.func 1 true)
        (_safe_add_callback_to_list (.str "a") [])) =
      [Callback.str "a", Callback.func 1 true, Callback.logger ⟨2, 5, []⟩] :=
  claim_C8_order_preservation.2 (.str "a") (.func 1 true) (.logger ⟨2, 5, []⟩)
    rfl rfl rfl (by decide) (by decide)

/-- Claim C9: when the callback is not a duplicate of either success list and
absent from both failure lists, `add_success_callback_sync_and_async` makes
it present in the sync- and async-success lists and leaves both failure lists
unchanged, with the callback absent from them. -/
theorem claim_C9_sync_and_async_success (r : Registry) (cb : Callback)
    (hrec : is_recognized cb = true)
    (h1 : is_duplicate_in cb r.success_callback = false)
    (h2 : is_duplicate_in cb r.async_success_callback = false)
    (h3 : pyMem cb r.failure_callback = false)
    (h4 : pyMem cb r.async_failure_callback = false) :
    pyMem cb (add_success_callback_sync_and_async r cb).success_callback = true ∧
    pyMem cb (add_success_callback_sync_and_async r cb).async_success_callback = true ∧
    pyMem cb (add_success_callback_sync_and_async r cb).failure_callback = false ∧
    pyMem cb (add_success_callback_sync_and_async r cb).async_failure_callback = false ∧
    (add_success_callback_sync_and_async r cb).failure_callback = r.failure_callback ∧
    (add_success_callback_sync_and_async r cb).async_failure_callback =
      r.async_failure_callback := by
  have hs : (add_success_callback_sync_and_async r cb).success_callback =
      _safe_add_callback_to_list cb r.success_callback := rfl
  have ha : (add_success_callback_sync_and_async r cb).async_success_callback =
      _safe_add_callback_to_list cb r.async_success_callback := rfl
  refine ⟨?_, ?_, h3, h4, rfl, rfl⟩
  · rw [hs, safe_add_eq_append cb _ hrec h1]
    exact pyMem_append_self cb _
  · rw [ha, safe_add_eq_append cb _ hrec h2]
    exact pyMem_append_self cb _

/-- Claim C9, witness: a fresh string callback on an empty registry. -/
theorem claim_C9_sync_and_async_success_witness :
    pyMem (.str "x")
      (add_success_callback_sync_and_async
        (Registry.mk [] [] [] [] [] [] []) (.str "x")).success_callback = true ∧
    pyMem (.str "x")
      (add_success_callback_sync_and_async
        (Registry.mk [] [] [] [] [] [] []) (.str "x")).failure_callback = false :=
  have h := claim_C9_sync_and_async_success
    (Registry.mk [] [] [] [] [] [] []) (.str "x") rfl rfl rfl rfl rfl
  ⟨h.1, h.2.2.1⟩

/-- Claim C10: for a strict subclass relation (the second logger's class an
ancestor of the first's), adding the subclass instance first blocks the
superclass instance, while the opposite order admits both. -/
theorem claim_C10_subclass_asymmetry (la lb : CustomLogger)
    (hsub : lb.ancestors.contains la.cls = true)
    (hne : (lb.cls == la.cls) = false)
    (hnosup : la.ancestors.contains lb.cls = false) :
    _add_custom_logger_to_list la (_add_custom_logger_to_list lb []) =
      [.logger lb] ∧
    _add_custom_logger_to_list lb (_add_custom_logger_to_list la []) =
      [.logger la, .logger lb] := by
  have hsub2 : la.cls ∈ lb.ancestors := by simpa using hsub
  have hnosup2 : lb.cls ∉ la.ancestors := by simpa using hnosup
  constructor
  · simp [_add_custom_logger_to_list, blocks_logger, hsub2]
  · simp [_add_custom_logger_to_list, blocks_logger, hne, hnosup2]

/-- Claim C10, witness: class 1 a strict subclass of class 0. -/
theorem claim_C10_subclass_asymmetry_witness :
    _add_custom_logger_to_list ⟨11, 0, []⟩ (_add_custom_logger_to_list ⟨10, 1, [0]⟩ []) =
      [Callback.logger ⟨10, 1, [0]⟩] ∧
    _add_custom_logger_to_list ⟨10, 1, [0]⟩ (_add_custom_logger_to_list ⟨11, 0, []⟩ []) =
      [Callback.logger ⟨11, 0, []⟩, Callback.logger ⟨10, 1, [0]⟩] :=
  claim_C10_subclass_asymmetry ⟨11, 0, []⟩ ⟨10, 1, [0]⟩ rfl rfl rfl

end LoggingCallbackManager
